import Mathlib

/-!
Shallow embedding of the capture–detect–filter–alert pipeline of the
yolov8 smartphone monitoring application.

Sources embedded here:
- src/utils/detection.py      (SmartphoneDetector)
- src/utils/screen_capture.py (ScreenCapture capture loop and interval setter)
- src/gui.py / src/main.py    (alert notification tabs, process_screenshot,
                               exclusion-zone mouse handling; the two files
                               contain the same logic for these methods)

Python floats are modelled as rationals (ℚ); the numeric operations the
claims touch (comparison, addition, halving, max) are exact on the inputs of
interest.  Image pixel data never influences the logic under verification
(raw detections come from the external YOLO model, which the spec treats as
a black box), so frames are identified by an opaque tag.
-/

/-- Truncation toward zero, the behaviour of Python's `int()` on a float. -/
def pyInt (q : ℚ) : Int := if 0 ≤ q then ⌊q⌋ else ⌈q⌉

/-- One raw detection from the external model: class id, confidence, and the
`box.xyxy` coordinates (floats in the source, hence rationals here);
`detect_smartphone` truncates the coordinates with `int()` (detection.py:69). -/
structure RawDetection where
  cls_id : Int
  conf : ℚ
  bx1 : ℚ
  by1 : ℚ
  bx2 : ℚ
  by2 : ℚ
deriving DecidableEq

/-- An exclusion zone `(x1,y1,x2,y2)`; the GUI stores these as integers
(gui.py:709-714). -/
structure ExclusionZone where
  x1 : Int
  y1 : Int
  x2 : Int
  y2 : Int
deriving DecidableEq

/-- One element of `detected_boxes` as built at detection.py:88:
`(x1, y1, x2, y2, conf, cls_id, in_exclusion_zone)`. -/
structure ClassifiedBox where
  x1 : Int
  y1 : Int
  x2 : Int
  y2 : Int
  conf : ℚ
  cls_id : Int
  in_exclusion_zone : Bool
deriving DecidableEq

/-- The inner zone loop of detection.py:79-82: scan the zones in order with
inclusive bounds on the detection's center and break on the first hit. -/
def in_zone_scan : List ExclusionZone → ℚ → ℚ → Bool
  | [], _, _ => false
  | z :: rest, cx, cy =>
    if (z.x1 : ℚ) ≤ cx ∧ cx ≤ (z.x2 : ℚ) ∧ (z.y1 : ℚ) ≤ cy ∧ cy ≤ (z.y2 : ℚ) then
      true
    else
      in_zone_scan rest cx cy

/-- The `in_exclusion_zone` value computed at detection.py:72-82 for a center
point: `False` when `exclusion_zones` is `None` or empty (Python truthiness of
the argument at line 73), otherwise the result of the zone scan. -/
def zonesHit (exclusion_zones : Option (List ExclusionZone)) (cx cy : ℚ) : Bool :=
  match exclusion_zones with
  | none => false
  | some zs => if zs.isEmpty then false else in_zone_scan zs cx cy

/-- The mutable locals of the detection loop (detection.py:48-51). -/
structure DetectScan where
  smartphones_found : Bool
  smartphones_outside_exclusion : Bool
  max_conf : ℚ
  detected_boxes : List ClassifiedBox
deriving DecidableEq

/-- The body of the per-box loop of detection.py:57-125: filter by strict
`conf > threshold`, truncate the box to integers, test the box center against
the zones, record the box, track the running maximum confidence, and raise the
outside-exclusion flag only for non-excluded boxes.  Drawing on the result
image (lines 98-125) has no effect on this state and is omitted. -/
def processBox (threshold : ℚ) (exclusion_zones : Option (List ExclusionZone))
    (s : DetectScan) (b : RawDetection) : DetectScan :=
  if b.conf > threshold then
    let x1 := pyInt b.bx1
    let y1 := pyInt b.by1
    let x2 := pyInt b.bx2
    let y2 := pyInt b.by2
    let cx : ℚ := ((x1 : ℚ) + (x2 : ℚ)) / 2
    let cy : ℚ := ((y1 : ℚ) + (y2 : ℚ)) / 2
    let in_ex : Bool := zonesHit exclusion_zones cx cy
    { smartphones_found := true
      smartphones_outside_exclusion :=
        if in_ex then s.smartphones_outside_exclusion else true
      max_conf := if b.conf > s.max_conf then b.conf else s.max_conf
      detected_boxes := s.detected_boxes ++ [⟨x1, y1, x2, y2, b.conf, b.cls_id, in_ex⟩] }
  else s

/-- The whole detection loop of detection.py:53-125 over the flattened list of
raw boxes, starting from the initial locals of lines 48-51. -/
def detect_scan (threshold : ℚ) (exclusion_zones : Option (List ExclusionZone))
    (dets : List RawDetection) : DetectScan :=
  dets.foldl (processBox threshold exclusion_zones) ⟨false, false, 0, []⟩

/-- The detector's instance state (detection.py:18-26). -/
structure SmartphoneDetector where
  detection_count : Nat
  smartphone_detected : Bool
  last_confidence : ℚ
  confidence_threshold : ℚ
  last_detections : List ClassifiedBox
deriving DecidableEq

/-- detection.py:28-136 `detect_smartphone`: run the scan over the raw
detections, update the instance state (lines 127-133), and return the
outside-exclusion flag (line 136).  The returned result image is presentation
data and is omitted. -/
def SmartphoneDetector.detect_smartphone (d : SmartphoneDetector)
    (dets : List RawDetection) (exclusion_zones : Option (List ExclusionZone)) :
    Bool × SmartphoneDetector :=
  let s := detect_scan d.confidence_threshold exclusion_zones dets
  ( s.smartphones_outside_exclusion,
    { d with
      smartphone_detected := s.smartphones_found
      last_detections := s.detected_boxes
      detection_count :=
        if s.smartphones_found then d.detection_count + 1 else d.detection_count
      last_confidence :=
        if s.smartphones_found then s.max_conf else d.last_confidence } )

/-- detection.py:138-147 `set_confidence_threshold`: accept and store values in
`[0, 1]`, otherwise leave the threshold unchanged and return `False`. -/
def SmartphoneDetector.set_confidence_threshold (d : SmartphoneDetector)
    (value : ℚ) : SmartphoneDetector × Bool :=
  if 0 ≤ value ∧ value ≤ 1 then ({ d with confidence_threshold := value }, true)
  else (d, false)

/-- Center abscissa of a truncated detection box, as at detection.py:75. -/
def RawDetection.center_x (b : RawDetection) : ℚ :=
  ((pyInt b.bx1 : ℚ) + (pyInt b.bx2 : ℚ)) / 2

/-- Center ordinate of a truncated detection box, as at detection.py:76. -/
def RawDetection.center_y (b : RawDetection) : ℚ :=
  ((pyInt b.by1 : ℚ) + (pyInt b.by2 : ℚ)) / 2

/-- Center abscissa of a stored classified box. -/
def ClassifiedBox.center_x (c : ClassifiedBox) : ℚ := ((c.x1 : ℚ) + (c.x2 : ℚ)) / 2

/-- Center ordinate of a stored classified box. -/
def ClassifiedBox.center_y (c : ClassifiedBox) : ℚ := ((c.y1 : ℚ) + (c.y2 : ℚ)) / 2

/-- The spec's inclusive point-in-rectangle test for a zone. -/
def centerInZone (z : ExclusionZone) (cx cy : ℚ) : Prop :=
  (z.x1 : ℚ) ≤ cx ∧ cx ≤ (z.x2 : ℚ) ∧ (z.y1 : ℚ) ≤ cy ∧ cy ≤ (z.y2 : ℚ)

instance (z : ExclusionZone) (cx cy : ℚ) : Decidable (centerInZone z cx cy) := by
  unfold centerInZone; infer_instance

theorem in_zone_scan_iff (zs : List ExclusionZone) (cx cy : ℚ) :
    in_zone_scan zs cx cy = true ↔ ∃ z ∈ zs, centerInZone z cx cy := by
  induction zs with
  | nil => simp [in_zone_scan]
  | cons z rest ih =>
    by_cases h : centerInZone z cx cy
    · simp [in_zone_scan, centerInZone] at h ⊢
      tauto
    · simp only [in_zone_scan, centerInZone] at h ⊢
      rw [if_neg h, ih]
      simp only [List.mem_cons]
      constructor
      · rintro ⟨w, hw, hc⟩; exact ⟨w, Or.inr hw, hc⟩
      · rintro ⟨w, hw | hw, hc⟩
        · exact absurd (hw ▸ hc) h
        · exact ⟨w, hw, hc⟩

theorem zonesHit_iff (zo : Option (List ExclusionZone)) (cx cy : ℚ) :
    zonesHit zo cx cy = true ↔ ∃ z ∈ zo.getD [], centerInZone z cx cy := by
  match zo with
  | none => simp [zonesHit]
  | some zs =>
    cases zs with
    | nil => simp [zonesHit, in_zone_scan]
    | cons z rest => simpa [zonesHit] using in_zone_scan_iff (z :: rest) cx cy

/-- A raw detection that survives the filter and whose center misses all
zones: exactly the detections that set `smartphones_outside_exclusion`. -/
def survivesOutside (threshold : ℚ) (zo : Option (List ExclusionZone))
    (b : RawDetection) : Bool :=
  decide (b.conf > threshold) && !(zonesHit zo b.center_x b.center_y)

theorem processBox_eq_of_not_gt (th : ℚ) (zo : Option (List ExclusionZone))
    (s : DetectScan) (b : RawDetection) (h : ¬ b.conf > th) :
    processBox th zo s b = s := by
  simp [processBox, h]

theorem foldl_found (th : ℚ) (zo : Option (List ExclusionZone))
    (dets : List RawDetection) : ∀ s : DetectScan,
    (List.foldl (processBox th zo) s dets).smartphones_found =
      (s.smartphones_found || dets.any fun b => decide (b.conf > th)) := by
  induction dets with
  | nil => intro s; simp
  | cons b rest ih =>
    intro s
    by_cases h : b.conf > th
    · simp only [List.foldl_cons, List.any_cons, ih]
      simp [processBox, h]
    · simp only [List.foldl_cons, List.any_cons, ih,
        processBox_eq_of_not_gt th zo s b h]
      simp [h]

theorem foldl_outside (th : ℚ) (zo : Option (List ExclusionZone))
    (dets : List RawDetection) : ∀ s : DetectScan,
    (List.foldl (processBox th zo) s dets).smartphones_outside_exclusion =
      (s.smartphones_outside_exclusion || dets.any (survivesOutside th zo)) := by
  induction dets with
  | nil => intro s; simp
  | cons b rest ih =>
    intro s
    by_cases h : b.conf > th
    · simp only [List.foldl_cons, List.any_cons, ih]
      by_cases hz : zonesHit zo b.center_x b.center_y = true
      · have : (processBox th zo s b).smartphones_outside_exclusion =
            s.smartphones_outside_exclusion := by
          simp [processBox, h, RawDetection.center_x, RawDetection.center_y,
            zonesHit] at hz ⊢
          simp [hz]
        rw [this]
        simp [survivesOutside, h, hz]
    
      · have : (processBox th zo s b).smartphones_outside_exclusion = true := by
          simp [processBox, h, RawDetection.center_x, RawDetection.center_y,
            zonesHit] at hz ⊢
          simp [hz]
        rw [this]
        simp [survivesOutside, h, hz]
    · simp only [List.foldl_cons, List.any_cons, ih,
        processBox_eq_of_not_gt th zo s b h]
      simp [survivesOutside, h]

theorem processBox_maxconf_le (th : ℚ) (zo : Option (List ExclusionZone))
    (s : DetectScan) (b : RawDetection) :
    s.max_conf ≤ (processBox th zo s b).max_conf := by
  unfold processBox
  split_ifs with h1 h2
  · exact le_of_lt h2
  · exact le_refl _
  · exact le_refl _

theorem foldl_maxconf_mono (th : ℚ) (zo : Option (List ExclusionZone))
    (dets : List RawDetection) : ∀ s : DetectScan,
    s.max_conf ≤ (List.foldl (processBox th zo) s dets).max_conf := by
  induction dets with
  | nil => intro s; simp
  | cons b rest ih =>
    intro s
    calc s.max_conf ≤ (processBox th zo s b).max_conf :=
          processBox_maxconf_le th zo s b
      _ ≤ _ := ih (processBox th zo s b)

theorem processBox_maxconf_ge (th : ℚ) (zo : Option (List ExclusionZone))
    (s : DetectScan) (b : RawDetection) (h : b.conf > th) :
    b.conf ≤ (processBox th zo s b).max_conf := by
  unfold processBox
  rw [if_pos h]
  by_cases h2 : b.conf > s.max_conf
  · simp [h2]
  · simp only [h2, if_false]
    exact le_of_not_lt h2

theorem foldl_maxconf_mem (th : ℚ) (zo : Option (List ExclusionZone)) :
    ∀ (dets : List RawDetection) (s : DetectScan) (b : RawDetection),
    b ∈ dets → b.conf > th →
    b.conf ≤ (List.foldl (processBox th zo) s dets).max_conf := by
  intro dets
  induction dets with
  | nil => intro s b hb; exact absurd hb (List.not_mem_nil b)
  | cons a rest ih =>
    intro s b hb hconf
    rcases List.mem_cons.mp hb with h | h
    · subst h
      calc b.conf ≤ (processBox th zo s b).max_conf :=
            processBox_maxconf_ge th zo s b hconf
        _ ≤ _ := foldl_maxconf_mono th zo rest (processBox th zo s b)
    · exact ih (processBox th zo s a) b h hconf

theorem foldl_boxes_mem (th : ℚ) (zo : Option (List ExclusionZone)) :
    ∀ (dets : List RawDetection) (s : DetectScan) (c : ClassifiedBox),
    c ∈ (List.foldl (processBox th zo) s dets).detected_boxes →
    c ∈ s.detected_boxes ∨
      c.in_exclusion_zone = zonesHit zo c.center_x c.center_y := by
  intro dets
  induction dets with
  | nil => intro s c hc; exact Or.inl hc
  | cons b rest ih =>
    intro s c hc
    rcases ih (processBox th zo s b) c hc with h | h
    · by_cases hconf : b.conf > th
      · simp only [processBox, if_pos hconf, List.mem_append,
          List.mem_singleton] at h
        rcases h with h | h
        · exact Or.inl h
        · subst h
          exact Or.inr (by simp [ClassifiedBox.center_x, ClassifiedBox.center_y])
      · rw [processBox_eq_of_not_gt th zo s b hconf] at h
        exact Or.inl h
    · exact Or.inr h

theorem in_zone_scan_eq_find (zs : List ExclusionZone) (cx cy : ℚ) :
    in_zone_scan zs cx cy =
      (zs.find? fun z => decide (centerInZone z cx cy)).isSome := by
  induction zs with
  | nil => rfl
  | cons z rest ih =>
    by_cases h : centerInZone z cx cy
    · have hcond := h
      unfold centerInZone at hcond
      simp [in_zone_scan, List.find?, hcond, h]
    · have hcond := h
      unfold centerInZone at hcond
      simp only [in_zone_scan, if_neg hcond, List.find?_cons]
      simp [h, ih]

/-- C1: `detect_smartphone` returns `smartphones_outside_exclusion = true` iff
some detection above the threshold has its center outside every exclusion
zone; every detection above the threshold (inside a zone or not) sets
`smartphone_detected` and is dominated by the reported maximum confidence
(`last_confidence`). -/
theorem detect_smartphone_actionable_spec (d : SmartphoneDetector)
    (dets : List RawDetection) (zones : Option (List ExclusionZone)) :
    ((d.detect_smartphone dets zones).1 = true ↔
      ∃ b ∈ dets, b.conf > d.confidence_threshold ∧
        ∀ z ∈ zones.getD [], ¬ centerInZone z b.center_x b.center_y)
    ∧ ∀ b ∈ dets, b.conf > d.confidence_threshold →
        (d.detect_smartphone dets zones).2.smartphone_detected = true ∧
        b.conf ≤ (d.detect_smartphone dets zones).2.last_confidence := by
  have hfound : (detect_scan d.confidence_threshold zones dets).smartphones_found
      = (dets.any fun b => decide (b.conf > d.confidence_threshold)) := by
    rw [detect_scan, foldl_found]
    simp
  constructor
  · show (detect_scan d.confidence_threshold zones dets).smartphones_outside_exclusion
        = true ↔ _
    rw [detect_scan, foldl_outside]
    simp only [Bool.false_or, List.any_eq_true, survivesOutside,
      Bool.and_eq_true, decide_eq_true_eq, Bool.not_eq_true']
    constructor
    · rintro ⟨b, hb, hconf, hz⟩
      refine ⟨b, hb, hconf, fun z hzz hcz => ?_⟩
      have := (zonesHit_iff zones b.center_x b.center_y).mpr ⟨z, hzz, hcz⟩
      rw [hz] at this
      exact Bool.false_ne_true this
    · rintro ⟨b, hb, hconf, hz⟩
      refine ⟨b, hb, hconf, ?_⟩
      cases hh : zonesHit zones b.center_x b.center_y with
      | false => rfl
      | true =>
        obtain ⟨z, hzz, hcz⟩ := (zonesHit_iff zones b.center_x b.center_y).mp hh
        exact absurd hcz (hz z hzz)
  · intro b hb hconf
    have hfnd : (detect_scan d.confidence_threshold zones dets).smartphones_found
        = true := by
      rw [hfound]
      exact List.any_eq_true.mpr ⟨b, hb, by simp [hconf]⟩
    have hdet : (d.detect_smartphone dets zones).2.smartphone_detected = true := hfnd
    refine ⟨hdet, ?_⟩
    have hlast : (d.detect_smartphone dets zones).2.last_confidence
        = (detect_scan d.confidence_threshold zones dets).max_conf := by
      show (if (detect_scan d.confidence_threshold zones dets).smartphones_found
          then (detect_scan d.confidence_threshold zones dets).max_conf
          else d.last_confidence) = _
      rw [hfnd, if_pos rfl]
    rw [hlast, detect_scan]
    exact foldl_maxconf_mem d.confidence_threshold zones dets _ b hb hconf

/-- The sample detector used by concrete witnesses: fresh state with the
default confidence threshold 0.5 (detection.py:18-26). -/
def sampleDetector : SmartphoneDetector :=
  { detection_count := 0, smartphone_detected := false, last_confidence := 0,
    confidence_threshold := 1/2, last_detections := [] }

/-- The sample zone of the spec scenarios: `(0,0,400,600)`. -/
def zoneA : ExclusionZone := { x1 := 0, y1 := 0, x2 := 400, y2 := 600 }

/-- Sample detection inside `zoneA`: box `(50,50,150,150)`, confidence 0.9. -/
def boxA : RawDetection :=
  { cls_id := 0, conf := 9/10, bx1 := 50, by1 := 50, bx2 := 150, by2 := 150 }

/-- Sample detection outside `zoneA`: box `(600,500,700,590)`, confidence 0.7. -/
def boxB : RawDetection :=
  { cls_id := 0, conf := 7/10, bx1 := 600, by1 := 500, bx2 := 700, by2 := 590 }

/-- C1 witness, the spec's zone-suppression scenario: one zone `(0,0,400,600)`,
one box `(50,50,150,150)` at confidence `0.9` against threshold `0.5` yields no
actionable detection but still sets `smartphone_detected`. -/
theorem detect_smartphone_actionable_spec_witness :
    (sampleDetector.detect_smartphone [boxA] (some [zoneA])).1 = false ∧
    (sampleDetector.detect_smartphone [boxA] (some [zoneA])).2.smartphone_detected
      = true := by
  have h := detect_smartphone_actionable_spec sampleDetector [boxA] (some [zoneA])
  have hconf : boxA.conf > sampleDetector.confidence_threshold := by
    norm_num [boxA, sampleDetector]
  have hmem : boxA ∈ [boxA] := List.mem_singleton.mpr rfl
  refine ⟨?_, (h.2 boxA hmem hconf).1⟩
  have hne : ¬ (sampleDetector.detect_smartphone [boxA] (some [zoneA])).1
      = true := by
    rw [h.1]
    rintro ⟨b, hb, hbc, hz⟩
    rw [List.mem_singleton] at hb
    subst hb
    refine hz zoneA (by simp) ?_
    refine ⟨?_, ?_, ?_, ?_⟩ <;>
      norm_num [RawDetection.center_x, RawDetection.center_y, pyInt, boxA, zoneA]
  exact Bool.eq_false_iff.mpr hne

/-- C2: detections whose confidence is exactly the threshold are excluded from
consideration: removing them from the input leaves the whole result of
`detect_smartphone` (the actionable flag and every piece of updated state)
unchanged, because the filter at detection.py:67 uses strict greater-than. -/
theorem detect_smartphone_at_threshold_excluded (d : SmartphoneDetector)
    (zones : Option (List ExclusionZone)) (dets : List RawDetection) :
    d.detect_smartphone
        (dets.filter fun b => !decide (b.conf = d.confidence_threshold)) zones
      = d.detect_smartphone dets zones := by
  have key : ∀ s : DetectScan,
      List.foldl (processBox d.confidence_threshold zones) s
        (dets.filter fun b => !decide (b.conf = d.confidence_threshold))
      = List.foldl (processBox d.confidence_threshold zones) s dets := by
    induction dets with
    | nil => intro s; rfl
    | cons b rest ih =>
      intro s
      by_cases h : b.conf = d.confidence_threshold
      · rw [List.filter_cons_of_neg (by simp [h]), List.foldl_cons,
          processBox_eq_of_not_gt _ _ _ _ (by rw [h]; exact lt_irrefl _)]
        exact ih s
      · rw [List.filter_cons_of_pos (by simp [h]), List.foldl_cons,
          List.foldl_cons]
        exact ih (processBox d.confidence_threshold zones s b)
  unfold SmartphoneDetector.detect_smartphone detect_scan
  rw [key]

/-- C3: every classified box stored by `detect_smartphone` is marked
in-exclusion-zone exactly when its box center lies in some zone under the
inclusive bounds `ex1 ≤ cx ≤ ex2 ∧ ey1 ≤ cy ≤ ey2`; moreover the zone scan is
the insertion-order first-match search (it agrees with `List.find?` over the
zone list, which short-circuits on the first matching zone). -/
theorem detect_smartphone_zone_marking (d : SmartphoneDetector)
    (dets : List RawDetection) (zs : List ExclusionZone) :
    (∀ c ∈ (d.detect_smartphone dets (some zs)).2.last_detections,
      (c.in_exclusion_zone = true ↔
        ∃ z ∈ zs, centerInZone z c.center_x c.center_y))
    ∧ ∀ cx cy : ℚ, in_zone_scan zs cx cy =
        (zs.find? fun z => decide (centerInZone z cx cy)).isSome := by
  refine ⟨?_, fun cx cy => in_zone_scan_eq_find zs cx cy⟩
  intro c hc
  have hmem : c ∈ (detect_scan d.confidence_threshold (some zs) dets).detected_boxes :=
    hc
  rcases foldl_boxes_mem d.confidence_threshold (some zs) dets _ c hmem with h | h
  · exact absurd h (List.not_mem_nil c)
  · rw [h]
    simpa using zonesHit_iff (some zs) c.center_x c.center_y

/-- C3 witness: with zone `(0,0,400,600)` the box `(50,50,150,150)` (center
`(100,100)`) is stored marked in-zone, and the zone membership predicate holds
for it; evaluated on the concrete run of `detect_smartphone`. -/
theorem detect_smartphone_zone_marking_witness :
    ((⟨50, 50, 150, 150, 9/10, 0, true⟩ : ClassifiedBox).in_exclusion_zone = true ↔
      ∃ z ∈ [zoneA],
        centerInZone z (⟨50, 50, 150, 150, 9/10, 0, true⟩ : ClassifiedBox).center_x
          (⟨50, 50, 150, 150, 9/10, 0, true⟩ : ClassifiedBox).center_y) := by
  have hboxes : (sampleDetector.detect_smartphone [boxA] (some [zoneA])).2.last_detections
      = [⟨50, 50, 150, 150, 9/10, 0, true⟩] := by
    show (detect_scan sampleDetector.confidence_threshold (some [zoneA])
      [boxA]).detected_boxes = _
    norm_num [detect_scan, processBox, pyInt, zonesHit, in_zone_scan, boxA, zoneA,
      sampleDetector]
  apply (detect_smartphone_zone_marking sampleDetector [boxA] [zoneA]).1
  rw [hboxes]
  exact List.mem_singleton.mpr rfl

/-- C7: `set_confidence_threshold` stores the value and returns `True` exactly
for `0 ≤ value ≤ 1`, and otherwise leaves the detector unchanged and returns
`False` (detection.py:138-147). -/
theorem set_confidence_threshold_spec (d : SmartphoneDetector) (v : ℚ) :
    (0 ≤ v ∧ v ≤ 1 →
      d.set_confidence_threshold v = ({ d with confidence_threshold := v }, true))
    ∧ (¬ (0 ≤ v ∧ v ≤ 1) → d.set_confidence_threshold v = (d, false)) := by
  constructor <;> intro h <;>
    simp [SmartphoneDetector.set_confidence_threshold, h]

/-- C7 witness: the setter rejects `1.5` and `-0.1` leaving the prior threshold
(`0.5`) in place, and accepts `0.25`. -/
theorem set_confidence_threshold_spec_witness :
    sampleDetector.set_confidence_threshold (3/2) = (sampleDetector, false) ∧
    sampleDetector.set_confidence_threshold (-1/10) = (sampleDetector, false) ∧
    sampleDetector.set_confidence_threshold (1/4)
      = ({ sampleDetector with confidence_threshold := 1/4 }, true) :=
  ⟨(set_confidence_threshold_spec sampleDetector (3/2)).2 (by norm_num),
    (set_confidence_threshold_spec sampleDetector (-1/10)).2 (by norm_num),
    (set_confidence_threshold_spec sampleDetector (1/4)).1 (by norm_num)⟩

/-- Frames are identified by a tag; pixel content never affects the loop. -/
abbrev FrameTag := Nat

/-- The fields of `ScreenCapture` that the capture loop reads and writes
(screen_capture.py:13-17). -/
structure ScreenCaptureState where
  running : Bool
  capture_interval : ℚ
  last_screenshot : Option FrameTag
deriving DecidableEq

/-- What one pass through the `try` block of the loop body does
(screen_capture.py:58-77): either the grab and the callback complete, yielding
a frame after some elapsed time, or some step raises an exception. -/
inductive CycleEvent where
  | frame (img : FrameTag) (elapsed : ℚ)
  | failure
deriving DecidableEq

/-- The observable effect of one loop body execution: the state afterwards,
how long the iteration slept, and whether the except branch logged an error. -/
structure IterResult where
  state : ScreenCaptureState
  slept : ℚ
  logged_error : Bool
deriving DecidableEq

/-- The body of `_capture_loop` (screen_capture.py:58-81): on success store the
frame and sleep `max(0, interval - elapsed)`; on any exception print the error
and sleep 1 second.  Both branches fall through to the next `while` test. -/
def capture_body (s : ScreenCaptureState) (ev : CycleEvent) : IterResult :=
  match ev with
  | .frame img elapsed =>
    ⟨{ s with last_screenshot := some img },
      max 0 (s.capture_interval - elapsed), false⟩
  | .failure => ⟨s, 1, true⟩

/-- `_capture_loop` (screen_capture.py:51-81) run over a finite schedule of
cycle events: while `_running` holds, execute the body and continue with the
resulting state.  The loop exits only when `_running` is false. -/
def capture_loop (s : ScreenCaptureState) : List CycleEvent → List IterResult
  | [] => []
  | ev :: rest =>
    if s.running then
      let r := capture_body s ev
      r :: capture_loop r.state rest
    else []

/-- screen_capture.py:88-95 `set_capture_interval`: store `max(0.1, interval)`
and return `True`. -/
def set_capture_interval (s : ScreenCaptureState) (interval : ℚ) :
    ScreenCaptureState × Bool :=
  ({ s with capture_interval := max (1/10) interval }, true)

/-- C8: a cycle in which frame acquisition or the callback raises logs the
failure, sleeps exactly the fixed 1-second fallback, leaves the capture state
(including the running flag and the last stored frame) unchanged, and the loop
carries on with the remaining schedule — a single failing cycle never
terminates the loop and no exception escapes (the loop is total). -/
theorem capture_loop_failure_recovers (s : ScreenCaptureState)
    (rest : List CycleEvent) (h : s.running = true) :
    capture_loop s (CycleEvent.failure :: rest)
      = ⟨s, 1, true⟩ :: capture_loop s rest := by
  simp [capture_loop, capture_body, h]

/-- C8 witness: a concrete running capture state processes a failure event
into a logged 1-second sleep followed by the unchanged continuation. -/
theorem capture_loop_failure_recovers_witness :
    capture_loop ⟨true, 3/2, none⟩ [CycleEvent.failure]
      = [⟨⟨true, 3/2, none⟩, 1, true⟩] := by
  have h := capture_loop_failure_recovers ⟨true, 3/2, none⟩ [] rfl
  simpa [capture_loop] using h

/-- C9: `set_capture_interval` always returns `True` and stores
`max(0.1, interval)`: values below 0.1 are clamped up to 0.1, values at or
above 0.1 are stored unchanged. -/
theorem set_capture_interval_spec (s : ScreenCaptureState) (v : ℚ) :
    (set_capture_interval s v).2 = true
    ∧ (set_capture_interval s v).1
      = { s with capture_interval := max (1/10) v }
    ∧ (v < 1/10 → (set_capture_interval s v).1.capture_interval = 1/10)
    ∧ (1/10 ≤ v → (set_capture_interval s v).1.capture_interval = v) := by
  refine ⟨rfl, rfl, fun h => ?_, fun h => ?_⟩
  · exact max_eq_left (le_of_lt h)
  · exact max_eq_right h

/-- C9 witness: `0.01` is clamped to `0.1`; `2` is stored unchanged; both
calls return `True`. -/
theorem set_capture_interval_spec_witness :
    (set_capture_interval ⟨false, 3/2, none⟩ (1/100)).1.capture_interval = 1/10
    ∧ (set_capture_interval ⟨false, 3/2, none⟩ 2).1.capture_interval = 2
    ∧ (set_capture_interval ⟨false, 3/2, none⟩ (1/100)).2 = true :=
  ⟨(set_capture_interval_spec ⟨false, 3/2, none⟩ (1/100)).2.2.1 (by norm_num),
    (set_capture_interval_spec ⟨false, 3/2, none⟩ 2).2.2.2 (by norm_num),
    (set_capture_interval_spec ⟨false, 3/2, none⟩ (1/100)).1⟩

/-- The alert/notification state of the GUI (gui.py:38-41, main.py:40-43):
whether the notification window currently exists (`notification_window` is
non-null and `winfo_exists`), the tab counter, the ids of the open alert tabs
in insertion order, and the `notification_shown` latch. -/
structure AlertUI where
  window_exists : Bool
  tab_count : Nat
  open_tabs : List Nat
  notification_shown : Bool
deriving DecidableEq

/-- gui.py:936-974 `show_notification` (identical in main.py:557-594): if the
window does not exist (or was closed), recreate it with a fresh notebook and
reset `tab_count` to 0 (line 959); then increment `tab_count` and add a new
tab whose id is the new counter value.  Sound, layout and styling of the tab
contents are presentation and are omitted. -/
def show_notification (s : AlertUI) : AlertUI :=
  let s1 := if s.window_exists then s
    else { s with window_exists := true, tab_count := 0, open_tabs := [] }
  { s1 with
    tab_count := s1.tab_count + 1
    open_tabs := s1.open_tabs ++ [s1.tab_count + 1] }

/-- gui.py:1230-1239 `close_notification_tab` (identical in main.py:850-859):
drop the tab at the given index; when no tabs remain, destroy the window and
null the reference.  The guard `if self.notification_tabs and tab` is modelled
as the index being valid for an existing window.  Nothing here touches
`notification_shown`. -/
def close_notification_tab (s : AlertUI) (i : Nat) : AlertUI :=
  if s.window_exists ∧ i < s.open_tabs.length then
    let tabs := s.open_tabs.eraseIdx i
    if tabs.isEmpty then { s with open_tabs := tabs, window_exists := false }
    else { s with open_tabs := tabs }
  else s

/-- The alert-session effect of `process_screenshot` (gui.py:416-449,
main.py:440-472), given the monitoring flag and the actionable boolean the
detector returned for the cycle: an actionable cycle shows a notification and
sets the latch (gui.py:441-443); a non-actionable cycle only logs — the
comment at main.py:470 records that the latch and windows are deliberately
not reset. -/
def process_screenshot (is_monitoring : Bool) (s : AlertUI)
    (smartphones_detected : Bool) : AlertUI :=
  if ¬ is_monitoring then s
  else if smartphones_detected then
    { show_notification s with notification_shown := true }
  else s

/-- The ids of the open tabs are strictly increasing and bounded by the tab
counter.  This is the strongest monotonicity the code maintains: it holds
within one lifetime of the notification window but says nothing across a
window recreation, where the counter restarts. -/
def AlertInv (s : AlertUI) : Prop :=
  s.open_tabs.Pairwise (· < ·) ∧ ∀ i ∈ s.open_tabs, i ≤ s.tab_count

/-- C4 counterexample: open two alert records (ids 1 and 2), dismiss both —
which destroys the window — and let a third actionable cycle occur.  The
window is recreated, `tab_count` is reset (gui.py:959), and the third record
gets id 1 again: record ids are not strictly increasing across the whole
session. -/
theorem show_notification_ids_not_monotonic :
    let s0 : AlertUI := ⟨false, 0, [], false⟩
    let s2 := process_screenshot true (process_screenshot true s0 true) true
    let s4 := close_notification_tab (close_notification_tab s2 0) 0
    let s5 := process_screenshot true s4 true
    s2.open_tabs = [1, 2] ∧ s4.open_tabs = [] ∧ s5.open_tabs = [1]
      ∧ s5.tab_count = 1 ∧ ¬ 2 < s5.tab_count := by
  decide

/-- C4 as amended: every actionable cycle opens exactly one new alert record,
never deduplicated; while the window exists the new record's id is the
incremented counter (so ids strictly increase within one window lifetime, and
the sortedness invariant is preserved by opening and by dismissal), but when
the window has to be recreated the counter restarts at 1. -/
theorem show_notification_new_record_spec (s : AlertUI) :
    (s.window_exists = true →
      (process_screenshot true s true).open_tabs = s.open_tabs ++ [s.tab_count + 1]
      ∧ (process_screenshot true s true).tab_count = s.tab_count + 1)
    ∧ (s.window_exists = false →
      (process_screenshot true s true).open_tabs = [1]
      ∧ (process_screenshot true s true).tab_count = 1)
    ∧ (AlertInv s → AlertInv (process_screenshot true s true))
    ∧ (∀ i, AlertInv s → AlertInv (close_notification_tab s i)) := by
  refine ⟨fun hw => ?_, fun hw => ?_, fun hinv => ?_, fun i hinv => ?_⟩
  · simp [process_screenshot, show_notification, hw]
  · simp [process_screenshot, show_notification, hw]
  · obtain ⟨hpw, hbound⟩ := hinv
    cases hw : s.window_exists with
    | true =>
      refine ⟨?_, ?_⟩
      · show ((show_notification s).open_tabs).Pairwise (· < ·)
        simp only [show_notification, hw, if_pos]
        rw [List.pairwise_append]
        refine ⟨hpw, List.pairwise_singleton _ _, ?_⟩
        intro a ha b hb
        rw [List.mem_singleton] at hb
        subst hb
        exact Nat.lt_succ_of_le (hbound a ha)
      · show ∀ j ∈ (show_notification s).open_tabs, j ≤ (show_notification s).tab_count
        simp only [show_notification, hw, if_pos]
        intro j hj
        simp only [List.mem_append, List.mem_singleton] at hj
        rcases hj with hj | hj
        · exact le_trans (hbound j hj) (Nat.le_succ _)
        · exact le_of_eq hj
    | false =>
      refine ⟨?_, ?_⟩
      · show ((show_notification s).open_tabs).Pairwise (· < ·)
        simp [show_notification, hw]
      · show ∀ j ∈ (show_notification s).open_tabs, j ≤ (show_notification s).tab_count
        simp [show_notification, hw]
  · obtain ⟨hpw, hbound⟩ := hinv
    unfold AlertInv close_notification_tab
    dsimp only
    split_ifs with h1 h2
    · exact ⟨hpw.sublist (List.eraseIdx_sublist s.open_tabs i),
        fun j hj => hbound j ((List.eraseIdx_sublist s.open_tabs i).mem hj)⟩
    · exact ⟨hpw.sublist (List.eraseIdx_sublist s.open_tabs i),
        fun j hj => hbound j ((List.eraseIdx_sublist s.open_tabs i).mem hj)⟩
    · exact ⟨hpw, hbound⟩

/-- C4 amended claim witness: on a concrete window with tabs `[1,2]` and
counter 2, an actionable cycle opens exactly the record with id 3. -/
theorem show_notification_new_record_spec_witness :
    (process_screenshot true ⟨true, 2, [1, 2], true⟩ true).open_tabs
        = [1, 2] ++ [2 + 1]
    ∧ (process_screenshot true ⟨true, 2, [1, 2], true⟩ true).tab_count = 2 + 1
    ∧ AlertInv (process_screenshot true ⟨true, 2, [1, 2], true⟩ true) := by
  have h := show_notification_new_record_spec ⟨true, 2, [1, 2], true⟩
  refine ⟨(h.1 rfl).1, (h.1 rfl).2, h.2.2.1 ?_⟩
  constructor
  · decide
  · decide

/-- C5 counterexample: from a state with one open record and the latch set,
dismissing that record empties the collection and destroys the window, but the
`notification_shown` latch stays `true`, and a later cycle with no actionable
detection still observes the latch set (the state is not `Idle`): the claim
that dismissal of the last record clears the latch is false on this code. -/
theorem close_notification_tab_latch_not_cleared :
    (close_notification_tab ⟨true, 1, [1], true⟩ 0).open_tabs = []
    ∧ (close_notification_tab ⟨true, 1, [1], true⟩ 0).window_exists = false
    ∧ (close_notification_tab ⟨true, 1, [1], true⟩ 0).notification_shown = true
    ∧ (process_screenshot true (close_notification_tab ⟨true, 1, [1], true⟩ 0)
        false).notification_shown = true := by
  decide

/-- C5 as amended: dismissing a valid record removes exactly that record; if
the collection thereby becomes empty the notification window is destroyed and
its reference cleared — but the alerting latch (`notification_shown`) is NOT
cleared by dismissal (it is reset only when monitoring starts,
gui.py:367), so a later actionable-false cycle still observes an alerting
state. -/
theorem close_notification_tab_spec (s : AlertUI) (i : Nat)
    (hw : s.window_exists = true) (hi : i < s.open_tabs.length) :
    (close_notification_tab s i).open_tabs = s.open_tabs.eraseIdx i
    ∧ (close_notification_tab s i).notification_shown = s.notification_shown
    ∧ (close_notification_tab s i).tab_count = s.tab_count
    ∧ (close_notification_tab s i).window_exists
        = !(s.open_tabs.eraseIdx i).isEmpty := by
  unfold close_notification_tab
  rw [if_pos ⟨hw, hi⟩]
  cases he : (s.open_tabs.eraseIdx i).isEmpty with
  | true => simp [he]
  | false => simp [he, hw]

/-- C5 amended claim witness: dismissing tab index 0 of a window with tabs
`[1,2]` leaves exactly `[2]` open, the latch intact and the window alive. -/
theorem close_notification_tab_spec_witness :
    (close_notification_tab ⟨true, 2, [1, 2], true⟩ 0).open_tabs
        = [1, 2].eraseIdx 0
    ∧ (close_notification_tab ⟨true, 2, [1, 2], true⟩ 0).notification_shown = true
    ∧ (close_notification_tab ⟨true, 2, [1, 2], true⟩ 0).tab_count = 2
    ∧ (close_notification_tab ⟨true, 2, [1, 2], true⟩ 0).window_exists
        = !([1, 2].eraseIdx 0).isEmpty := by
  exact close_notification_tab_spec ⟨true, 2, [1, 2], true⟩ 0 rfl (by decide)

/-- C6: with the alerting latch set, a cycle whose outcome has no actionable
detection is a no-op on the alert session: no record is opened or removed and
the latch stays set — the `elif` branch at gui.py:444-446 only logs. -/
theorem process_screenshot_quiescent (mon : Bool) (s : AlertUI)
    (h : s.notification_shown = true) :
    process_screenshot mon s false = s := by
  cases mon <;> simp [process_screenshot]

/-- C6 witness: a concrete alerting state with one open record is unchanged by
a detection-free cycle. -/
theorem process_screenshot_quiescent_witness :
    process_screenshot true ⟨true, 1, [1], true⟩ false = ⟨true, 1, [1], true⟩ :=
  process_screenshot_quiescent true ⟨true, 1, [1], true⟩ rfl

/-- Python's floor division `//` on integers. -/
def pyFloorDiv (a b : Int) : Int := Int.fdiv a b

/-- The zone-selection state of the GUI (gui.py:46-53): the selection mode
flag, the temporary canvas rectangle (by id), the drag start point, the shape
`(h, w)` of the current frame if one exists, the canvas dimensions, and the
three parallel zone lists. -/
structure ZoneUI where
  is_selecting_zone : Bool
  current_rectangle : Option Nat
  start_x : Int
  start_y : Int
  current_image : Option (Int × Int)
  canvas_width : Int
  canvas_height : Int
  exclusion_zones : List ExclusionZone
  scaled_exclusion_zones : List (Int × Int × Int × Int)
  exclusion_colors : List String
deriving DecidableEq

/-- gui.py:650-733 `on_mouse_up` (identical in main.py:1031-1114): ignore the
release unless a selection is in progress; order the drag corners; reject
selections whose canvas width or height is under 20 pixels (deleting only the
temporary rectangle); otherwise, when a frame exists, convert the canvas
rectangle to frame coordinates via the scale-to-fit transform with centering
offsets, clamp to the frame, canonicalize the corner order, and append the
integer zone, the canvas-space rectangle, and the default color to the three
parallel lists; finally delete the temporary rectangle and leave selection
mode.  Rational division by a zero scale cannot occur for positive canvas and
frame dimensions; Lean's `q / 0 = 0` convention stands in for Python's error
case.  Status-bar text, message boxes and logging are omitted. -/
def on_mouse_up (s : ZoneUI) (end_x end_y : Int) : ZoneUI :=
  if ¬ s.is_selecting_zone ∨ s.current_rectangle = none then s
  else
    let x1 := min s.start_x end_x
    let y1 := min s.start_y end_y
    let x2 := max s.start_x end_x
    let y2 := max s.start_y end_y
    if |x2 - x1| < 20 ∨ |y2 - y1| < 20 then
      { s with current_rectangle := none }
    else
      let s1 :=
        match s.current_image with
        | none => s
        | some (h, w) =>
          let scale_w : ℚ := (s.canvas_width : ℚ) / (w : ℚ)
          let scale_h : ℚ := (s.canvas_height : ℚ) / (h : ℚ)
          let scale := min scale_w scale_h
          let new_w := pyInt ((w : ℚ) * scale)
          let new_h := pyInt ((h : ℚ) * scale)
          let x_offset := pyFloorDiv (s.canvas_width - new_w) 2
          let y_offset := pyFloorDiv (s.canvas_height - new_h) 2
          let x1_scaled : ℚ :=
            if x1 ≥ x_offset then ((x1 - x_offset : Int) : ℚ) / scale else 0
          let y1_scaled : ℚ :=
            if y1 ≥ y_offset then ((y1 - y_offset : Int) : ℚ) / scale else 0
          let x2_scaled : ℚ :=
            if x2 ≥ x_offset then ((x2 - x_offset : Int) : ℚ) / scale else 0
          let y2_scaled : ℚ :=
            if y2 ≥ y_offset then ((y2 - y_offset : Int) : ℚ) / scale else 0
          let x1c := max 0 (min (w : ℚ) x1_scaled)
          let y1c := max 0 (min (h : ℚ) y1_scaled)
          let x2c := max 0 (min (w : ℚ) x2_scaled)
          let y2c := max 0 (min (h : ℚ) y2_scaled)
          let x1_final := min x1c x2c
          let y1_final := min y1c y2c
          let x2_final := max x1c x2c
          let y2_final := max y1c y2c
          { s with
            exclusion_zones := s.exclusion_zones ++
              [({ x1 := pyInt x1_final, y1 := pyInt y1_final,
                  x2 := pyInt x2_final, y2 := pyInt y2_final } : ExclusionZone)]
            scaled_exclusion_zones :=
              s.scaled_exclusion_zones ++ [(x1, y1, x2, y2)]
            exclusion_colors := s.exclusion_colors ++ ["#ff0000"] }
      { s1 with current_rectangle := none, is_selecting_zone := false }

/-- C10: a finished drag whose canvas-space width or height is below 20 pixels
is rejected by `on_mouse_up`: the exclusion-zone list, the scaled-zone list
and the color list are all left exactly as they were and no zone is stored
(gui.py:666-671; only the temporary rectangle is deleted). -/
theorem on_mouse_up_small_selection_rejected (s : ZoneUI) (ex ey : Int)
    (h : |max s.start_x ex - min s.start_x ex| < 20
        ∨ |max s.start_y ey - min s.start_y ey| < 20) :
    (on_mouse_up s ex ey).exclusion_zones = s.exclusion_zones
    ∧ (on_mouse_up s ex ey).scaled_exclusion_zones = s.scaled_exclusion_zones
    ∧ (on_mouse_up s ex ey).exclusion_colors = s.exclusion_colors := by
  refine ⟨?_, ?_, ?_⟩ <;>
    (simp only [on_mouse_up]; split_ifs with h1 <;> rfl)

/-- The sample zone-selection state used by the C10 witness: selection in
progress on an 800x450 canvas showing a 800x600 frame, one zone already
stored. -/
def sampleZoneUI : ZoneUI :=
  { is_selecting_zone := true, current_rectangle := some 1, start_x := 0,
    start_y := 0, current_image := some (600, 800), canvas_width := 800,
    canvas_height := 450, exclusion_zones := [zoneA],
    scaled_exclusion_zones := [(0, 0, 400, 600)],
    exclusion_colors := ["#ff0000"] }

/-- C10 witness: with a selection in progress started at `(0,0)`, releasing at
`(10,50)` (canvas width 10 < 20) leaves all three zone lists untouched. -/
theorem on_mouse_up_small_selection_rejected_witness :
    (on_mouse_up sampleZoneUI 10 50).exclusion_zones = sampleZoneUI.exclusion_zones
    ∧ (on_mouse_up sampleZoneUI 10 50).scaled_exclusion_zones
        = sampleZoneUI.scaled_exclusion_zones
    ∧ (on_mouse_up sampleZoneUI 10 50).exclusion_colors
        = sampleZoneUI.exclusion_colors :=
  on_mouse_up_small_selection_rejected sampleZoneUI 10 50 (by decide)
